import Mathlib

/-!
Verification of the V5 high-volume trading engine
(`src/V5/trading_engine.py` with constants from `src/V5/config.py`).

The Python code is shallowly embedded over exact rational arithmetic (`ℚ`
for every currency amount, price and percentage; Python floats carry no
semantic weight in the checked properties).  Timestamps (`datetime.now()`,
`time.time()`) are seconds as `ℚ`, passed explicitly as a `now` argument.
Mutable `st.session_state` / engine attributes become explicit state
records that each operation consumes and returns.  Dictionaries keyed by
mint address become association lists over `String`.  Network access
(`data_fetcher`) becomes an explicit oracle record.  Presentation-only
fields of the trade record (wall-clock hour, day of week, dex name, …) and
the display-only `pnl_history` / `time_history` lists are omitted; every
field that any engine decision reads is kept.
-/

/-! ### Constants from `config.py` -/

def BASE_POSITION_SIZE : ℚ := 20
def MAX_POSITION_SIZE : ℚ := 40
def STOP_LOSS : ℚ := 8/100
def MAX_TRADE_DURATION : ℚ := 600
def SLIPPAGE : ℚ := 5/1000
def TRANSACTION_FEE : ℚ := 25/100
def MAX_DAILY_LOSS : ℚ := -150
def MAX_MARKET_CAP : ℚ := 2000000
def CYCLE_DELAY : ℚ := 2/10
def PRICE_UPDATE_INTERVAL : ℚ := 1
/-- `QUALITY_FILTERS['MIN_VOLUME_TO_MCAP_RATIO']` -/
def MIN_VOLUME_TO_MCAP : ℚ := 3
/-- `PROFIT_OPTIMIZATION['scalp_exit_time']` -/
def SCALP_EXIT_TIME : ℚ := 120

/-- The engine-config keys that `NORMAL_SETTINGS` / `TURBO_SETTINGS` carry
(`apply_turbo_mode` swaps them wholesale, overriding the module globals of
the same names). -/
structure Settings where
  minTokenScore : ℚ
  minPriceIncrease : ℚ
  minMarketCap : ℚ
  minLiquidity : ℚ
  maxConcurrentPositions : ℕ
  scanInterval : ℚ
  noChangeSellTime : ℚ
  deriving Repr, DecidableEq

def NORMAL_SETTINGS : Settings :=
  { minTokenScore := 50, minPriceIncrease := 15/1000, minMarketCap := 15000,
    minLiquidity := 15000, maxConcurrentPositions := 100, scanInterval := 1,
    noChangeSellTime := 30 }

def TURBO_SETTINGS : Settings :=
  { minTokenScore := 35, minPriceIncrease := 1/100, minMarketCap := 10000,
    minLiquidity := 10000, maxConcurrentPositions := 150, scanInterval := 1/2,
    noChangeSellTime := 20 }

/-! ### Data model -/

/-- A scored candidate token as the engine reads it (the dict fields
`trading_engine.py` accesses via `token.get(...)`). -/
structure Token where
  mint : String
  symbol : String
  price_usd : ℚ
  score : ℚ
  price_change_1h : ℚ
  price_change_5m : ℚ
  market_cap : ℚ
  liquidity : ℚ
  volume_24h : ℚ
  deriving Repr, DecidableEq

/-- An open position: the dict built by `enter_position` restricted to the
fields the engine ever reads afterwards (the precomputed `take_profit_1`,
`take_profit_2`, `stop_loss`, `scalp_target` and `last_price_check` entries
are written but never read, and are omitted). -/
structure Position where
  token : Token
  entry_price : ℚ
  entry_time : ℚ
  current_price : ℚ
  position_size : ℚ
  tokens_bought : ℚ
  highest_price : ℚ
  partial_sold : Bool
  consecutive_no_change_periods : ℕ
  score : ℚ
  trailing_stop : Option ℚ
  is_quick_scalp : Bool
  deriving Repr, DecidableEq

/-! ### Helper list functions (Python slicing / max / min) -/

/-- Python `l[-n:]`. -/
def lastN {α : Type} (n : ℕ) (l : List α) : List α := l.drop (l.length - n)

/-- Python `max(l)` for a nonempty list. -/
def listMax : List ℚ → ℚ
  | [] => 0
  | x :: xs => xs.foldl max x

/-- Python `min(l)` for a nonempty list. -/
def listMin : List ℚ → ℚ
  | [] => 0
  | x :: xs => xs.foldl min x

/-- `recent_prices[-1] < recent_prices[-2] < recent_prices[-3] < recent_prices[-4]`
on a four-element window (three consecutive drops). -/
def strictlyDown4 : List ℚ → Bool
  | [a, b, c, d] => d < c && c < b && b < a
  | _ => false

/-! ### Pieces of `check_exit_conditions` -/

/-- `percent_change = ((current_price - position['entry_price']) / position['entry_price']) * 100`
(note: `entry_price` is the post-slippage fill price stored by `enter_position`). -/
def percent_change (pos : Position) (p : ℚ) : ℚ :=
  (p - pos.entry_price) / pos.entry_price * 100

/-- Lines 210-221: the P&L quote of `check_exit_conditions`:
halve the position size and the gross value when the position was
partially sold, price the remaining tokens at the post-slippage exit
price, subtract the flat fee once. -/
def pnl_formula (pos : Position) (p : ℚ) : ℚ :=
  (if pos.partial_sold then
     pos.tokens_bought * (p * (1 - SLIPPAGE)) / 2
   else pos.tokens_bought * (p * (1 - SLIPPAGE)))
  - TRANSACTION_FEE
  - (if pos.partial_sold then pos.position_size / 2 else pos.position_size)

/-- Lines 196-205: on a new high, record it and (re-)arm the trailing stop —
8% below price when the gain over the entry fill price exceeds 20%,
5% below price when it exceeds 15%. -/
def arm_trailing (pos : Position) (p : ℚ) : Position :=
  if pos.highest_price < p then
    { pos with
      highest_price := p,
      trailing_stop :=
        if 20 < percent_change pos p then some (p * (92/100))
        else if 15 < percent_change pos p then some (p * (95/100))
        else pos.trailing_stop }
  else pos

/-- Lines 224-232: the quick-scalp exit, evaluated before every other rule.
`scalp` is `self.quick_scalp_targets.get(mint)`; `none` models absence. -/
def quick_scalp_verdict (pos : Position) (scalp : Option ℚ) (now pc : ℚ) :
    Option String :=
  if pos.is_quick_scalp then
    match scalp with
    | some t0 =>
      let scalp_time := now - t0
      if pc ≥ 5 ∨ scalp_time ≥ SCALP_EXIT_TIME then
        if pc ≥ 2 then some "QUICK_SCALP"
        else if scalp_time ≥ 120 then some "SCALP_TIMEOUT"
        else none
      else none
    | none => none
  else none

/-- Lines 244-261: the no-movement detector over the (already updated)
rolling price window.  Returns (fire the `NO_CHANGE` exit?, new
`consecutive_no_change_periods`). -/
def no_change_step (hist : Option (List ℚ)) (p : ℚ) (counter : ℕ)
    (turbo : Bool) : Bool × ℕ :=
  match hist with
  | some h =>
    let recent := lastN 5 h
    if 1 < recent.length then
      if (listMax recent - listMin recent) / p < 3/1000 then
        (decide ((if turbo then 2 else 3) ≤ counter + 1), counter + 1)
      else (false, 0)
    else (false, counter)
  | none => (false, counter)

/-- Lines 264-265: `if position.get('trailing_stop') and current_price <= position['trailing_stop']`
(Python truthiness: `None` and `0.0` both skip the rule). -/
def trailing_fires (ts : Option ℚ) (p : ℚ) : Bool :=
  match ts with
  | some v => if v = 0 then false else decide (p ≤ v)
  | none => false

/-- Lines 276-282: momentum reversal — in profit above 3% and the last four
window prices strictly decreasing. -/
def momentum_fires (hist : Option (List ℚ)) (pc : ℚ) : Bool :=
  if 3 < pc then
    match hist with
    | some h => strictlyDown4 (lastN 4 h)
    | none => false
  else false

/-- Lines 284-289: volume-decay exit.  The code divides the token's
`volume_24h` by the very same stored field, so the ratio is 1 whenever the
guard holds and the rule can never fire; embedded as written. -/
def volume_decay_fires (t : Token) (time_held : ℚ) : Bool :=
  if 0 < t.volume_24h ∧ 300 < time_held then
    decide (t.volume_24h / t.volume_24h < 1/2)
  else false

/-- Lines 185-194: append the fresh price to the per-mint window and keep
the last 20 entries (only when the window exists, as in the code). -/
def histUpdate (h : Option (List ℚ)) (p : ℚ) : Option (List ℚ) :=
  h.map (fun l => lastN 20 (l ++ [p]))

/-- `partial_pnl = (position_size * 0.4) * 0.08` where `position_size` is the
local variable of lines 211-213 (not halved on this path, since the branch
requires `partial_sold` to be false). -/
def partial_pnl_of (pos : Position) : ℚ :=
  (if pos.partial_sold then pos.position_size / 2 else pos.position_size)
    * (4/10) * (8/100)

/-- What one call to `check_exit_conditions` produces: the verdict triple
`(should_exit, reason, pnl)` plus the mutations it performed — the updated
position dict, the updated price window, and the equity / daily-P&L credits
of an immediate partial close. -/
structure ExitOutcome where
  should_exit : Bool
  reason : String
  pnl : ℚ
  pos : Position
  hist : Option (List ℚ)
  equity_delta : ℚ
  daily_pnl_delta : ℚ
  deriving Repr, DecidableEq

/-- `HighVolumeTradingEngine.check_exit_conditions` (lines 180-291).
`turbo` is `st.session_state.turbo_mode`, `scalp` is
`self.quick_scalp_targets.get(mint)`, `hist0` is
`self.price_history.get(mint)`, `p` the fresh price. -/
def check_exit_conditions (turbo : Bool) (scalp : Option ℚ) (now : ℚ)
    (hist0 : Option (List ℚ)) (pos0 : Position) (p : ℚ) : ExitOutcome :=
  let hist := histUpdate hist0 p
  let pos2 := arm_trailing { pos0 with current_price := p } p
  match quick_scalp_verdict pos0 scalp now (percent_change pos0 p) with
  | some r => ⟨true, r, pnl_formula pos0 p, pos2, hist, 0, 0⟩
  | none =>
    if pos0.partial_sold = false ∧ percent_change pos0 p ≥ 8 then
      ⟨false, "PARTIAL_8%", partial_pnl_of pos0,
        { pos2 with partial_sold := true,
                    tokens_bought := pos2.tokens_bought * (6/10) },
        hist,
        (if pos0.partial_sold then pos0.position_size / 2 else pos0.position_size)
          * (4/10) + partial_pnl_of pos0,
        partial_pnl_of pos0⟩
    else
      let nc := no_change_step hist p pos2.consecutive_no_change_periods turbo
      let pos3 := { pos2 with consecutive_no_change_periods := nc.2 }
      if nc.1 then ⟨true, "NO_CHANGE", pnl_formula pos0 p, pos3, hist, 0, 0⟩
      else if trailing_fires pos3.trailing_stop p then
        ⟨true, "TRAILING_STOP", pnl_formula pos0 p, pos3, hist, 0, 0⟩
      else if percent_change pos0 p ≥ 20 then
        ⟨true, "TAKE_PROFIT_20%", pnl_formula pos0 p, pos3, hist, 0, 0⟩
      else if percent_change pos0 p ≤ -8 then
        ⟨true, "STOP_LOSS_8%", pnl_formula pos0 p, pos3, hist, 0, 0⟩
      else if now - pos0.entry_time ≥ MAX_TRADE_DURATION then
        ⟨true, "TIMEOUT", pnl_formula pos0 p, pos3, hist, 0, 0⟩
      else if momentum_fires hist (percent_change pos0 p) then
        ⟨true, "MOMENTUM_REVERSAL", pnl_formula pos0 p, pos3, hist, 0, 0⟩
      else if volume_decay_fires pos0.token (now - pos0.entry_time) then
        ⟨true, "VOLUME_DECAY", pnl_formula pos0 p, pos3, hist, 0, 0⟩
      else ⟨false, "HOLDING", pnl_formula pos0 p, pos3, hist, 0, 0⟩

/-! ### Entry side -/

/-- `HighVolumeTradingEngine.calculate_position_size` (lines 101-114). -/
def calculate_position_size (t : Token) : ℚ :=
  if t.score ≥ 75 ∧ t.volume_24h > 500000 then
    min (BASE_POSITION_SIZE * 2) MAX_POSITION_SIZE
  else if t.score ≥ 60 ∧ t.volume_24h > 100000 then BASE_POSITION_SIZE * (15/10)
  else if t.score ≥ 50 then BASE_POSITION_SIZE * (12/10)
  else BASE_POSITION_SIZE

/-- `HighVolumeTradingEngine._is_quick_scalp_candidate` (lines 169-178). -/
def is_quick_scalp_candidate (t : Token) : Bool :=
  t.volume_24h > 200000 && t.price_change_5m > 1 && t.liquidity > 30000

/-- `HighVolumeTradingEngine.should_buy_token` (lines 55-99).  `cfg` is the
active settings profile (`self.config`, shadowing the module globals that
`apply_turbo_mode` overwrites), `seen` / `active` the mint sets of
`st.session_state.seen_tokens` / `st.session_state.active_positions`.
Returns the decision and the possibly-grown seen set. -/
def should_buy_token (cfg : Settings) (seen : List String)
    (active : List String) (daily_pnl : ℚ) (t : Token) : Bool × List String :=
  if t.mint ∈ seen ∨ t.mint ∈ active then (false, seen)
  else if daily_pnl ≤ MAX_DAILY_LOSS then (false, seen)
  else if t.score < cfg.minTokenScore then (false, seen)
  else if t.price_change_1h < cfg.minPriceIncrease * 100 ∧
          t.price_change_5m < cfg.minPriceIncrease * 100 * (1/2) then (false, seen)
  else if ¬(cfg.minMarketCap ≤ t.market_cap ∧ t.market_cap ≤ MAX_MARKET_CAP) then
    (false, seen)
  else if t.liquidity < cfg.minLiquidity then (false, seen)
  else if (if 0 < t.market_cap then t.volume_24h / t.market_cap else 0)
          < MIN_VOLUME_TO_MCAP then (false, seen)
  else (true, seen ++ [t.mint])

/-- The position dict `HighVolumeTradingEngine.enter_position` builds
(lines 116-167): `None` when the scanned price is not positive, otherwise
entry at the slippage-marked-up fill price.  (`datetime.now()` is the
explicit `now`.) -/
def enter_position (now : ℚ) (t : Token) : Option Position :=
  if t.price_usd ≤ 0 then none
  else
    let entry := t.price_usd * (1 + SLIPPAGE)
    some
      { token := t, entry_price := entry, entry_time := now,
        current_price := entry,
        position_size := calculate_position_size t,
        tokens_bought := (calculate_position_size t - TRANSACTION_FEE) / entry,
        highest_price := entry, partial_sold := false,
        consecutive_no_change_periods := 0, score := t.score,
        trailing_stop := none,
        is_quick_scalp := is_quick_scalp_candidate t }

/-! ### Session / engine state and the ledger operations -/

/-- The row `_create_trade_record` (lines 333-368) appends to
`st.session_state.trades`, keeping every field a decision or an analytics
aggregate reads (the source token snapshot is embedded whole; wall-clock
presentation fields are omitted). -/
structure TradeRecord where
  token : Token
  entry_price : ℚ
  exit_price : ℚ
  exit_reason : String
  pnl : ℚ
  pnl_percent : ℚ
  duration_seconds : ℚ
  percent_change_rec : ℚ
  position_size : ℚ
  partial_sold : Bool
  score : ℚ
  highest_price_reached : ℚ
  is_quick_scalp : Bool
  deriving Repr, DecidableEq

/-- `HighVolumeTradingEngine._create_trade_record`. -/
def create_trade_record (now : ℚ) (pos : Position) (reason : String)
    (pnl : ℚ) (psize : ℚ) : TradeRecord :=
  { token := pos.token,
    entry_price := pos.entry_price,
    exit_price := pos.current_price,
    exit_reason := reason,
    pnl := pnl,
    pnl_percent := if 0 < psize then pnl / psize * 100 else 0,
    duration_seconds := now - pos.entry_time,
    percent_change_rec :=
      (pos.current_price - pos.entry_price) / pos.entry_price * 100,
    position_size := psize,
    partial_sold := pos.partial_sold,
    score := pos.score,
    highest_price_reached := pos.highest_price,
    is_quick_scalp := pos.is_quick_scalp }

/-- The `st.session_state` fields the engine reads or writes
(`pnl_history` / `time_history` are display-only and omitted). -/
structure SessionState where
  bot_running : Bool
  turbo_mode : Bool
  equity : ℚ
  daily_pnl : ℚ
  active_positions : List (String × Position)
  seen_tokens : List String
  trades : List TradeRecord
  tokens_bought_count : ℕ
  win_streak : ℕ
  loss_streak : ℕ
  best_trade : ℚ
  worst_trade : ℚ
  last_update : ℚ
  last_price_update : ℚ
  last_token_check : ℚ
  deriving Repr, DecidableEq

/-- The engine-object attributes (`self.config`, `self.price_history`,
`self.quick_scalp_targets`). -/
structure EngineState where
  cfg : Settings
  price_history : List (String × List ℚ)
  quick_scalp_targets : List (String × ℚ)
  deriving Repr, DecidableEq

/-- Association-list lookup for the mint-keyed dicts. -/
def alookup {β : Type} : List (String × β) → String → Option β
  | [], _ => none
  | (k, v) :: rest, key => if k = key then some v else alookup rest key

/-- Dict assignment `d[k] = v`. -/
def aupsert {β : Type} : List (String × β) → String → β → List (String × β)
  | [], key, v => [(key, v)]
  | (k, w) :: rest, key, v =>
    if k = key then (k, v) :: rest else (k, w) :: aupsert rest key v

/-- Dict deletion `del d[k]` (no-op when absent, callers guard or catch). -/
def aremove {β : Type} : List (String × β) → String → List (String × β)
  | [], _ => []
  | (k, w) :: rest, key =>
    if k = key then rest else (k, w) :: aremove rest key

/-- The external collaborators of one cycle: `data_fetcher.get_current_price`
and `data_fetcher.fetch_all_tokens` (already-caught network failure is a
non-positive price / an empty list at this boundary). -/
structure Fetcher where
  price : Token → ℚ
  tokens : List Token

/-- `HighVolumeTradingEngine.close_position` (lines 293-331): look the
position up, scale the credited size by 0.6 after a partial sale, append the
trade record carrying the caller-supplied `pnl`, credit equity and daily
P&L with that same `pnl`, update the streak counters and extremes, and
delete the position with its engine-side history.  A missing mint is a
Python `KeyError`; the only caller catches it, so it is a no-op here. -/
def close_position (e : EngineState) (s : SessionState) (mint : String)
    (reason : String) (pnl : ℚ) (now : ℚ) : EngineState × SessionState :=
  match alookup s.active_positions mint with
  | none => (e, s)
  | some pos =>
    let psize :=
      if pos.partial_sold then pos.position_size * (6/10) else pos.position_size
    let trade := create_trade_record now pos reason pnl psize
    (⟨e.cfg, aremove e.price_history mint, aremove e.quick_scalp_targets mint⟩,
     { s with
        trades := s.trades ++ [trade],
        equity := s.equity + psize + pnl,
        daily_pnl := s.daily_pnl + pnl,
        win_streak := if 0 < pnl then s.win_streak + 1 else 0,
        loss_streak := if 0 < pnl then 0 else s.loss_streak + 1,
        best_trade := if 0 < pnl ∧ s.best_trade < pnl then pnl else s.best_trade,
        worst_trade :=
          if ¬0 < pnl ∧ pnl < s.worst_trade then pnl else s.worst_trade,
        active_positions := aremove s.active_positions mint })

/-- One position of `HighVolumeTradingEngine.update_all_prices`
(lines 376-388): ignore non-positive fetched prices, ignore moves of 70% or
more relative to the stored current price, otherwise adopt the price and
raise the high-water mark.  A zero stored price would raise
`ZeroDivisionError` inside the per-position `try`, leaving the position
untouched. -/
def update_price_one (pos : Position) (new_price : ℚ) : Position :=
  if 0 < new_price then
    if pos.current_price = 0 then pos
    else if |new_price - pos.current_price| / pos.current_price < 7/10 then
      { pos with
        current_price := new_price,
        highest_price :=
          if pos.highest_price < new_price then new_price else pos.highest_price }
    else pos
  else pos

/-- `HighVolumeTradingEngine.update_all_prices`. -/
def update_all_prices (s : SessionState) (f : Fetcher) : SessionState :=
  { s with
    active_positions :=
      s.active_positions.map fun mp => (mp.1, update_price_one mp.2 (f.price mp.2.token)) }

/-- The state changes of a successful `enter_position` (lines 127-164):
initialise the price window with the fill price, register the position,
debit equity by the position size, count the buy, and register the
quick-scalp target time. -/
def enter_position_s (e : EngineState) (s : SessionState) (now : ℚ)
    (t : Token) : Option (EngineState × SessionState) :=
  match enter_position now t with
  | none => none
  | some pos =>
    some
      (⟨e.cfg, aupsert e.price_history t.mint [pos.entry_price],
        if pos.is_quick_scalp then aupsert e.quick_scalp_targets t.mint now
        else e.quick_scalp_targets⟩,
       { s with
          active_positions := aupsert s.active_positions t.mint pos,
          equity := s.equity - pos.position_size,
          tokens_bought_count := s.tokens_bought_count + 1 })

/-- One iteration of the exit loop of `run_trading_cycle` (lines 414-423):
fetch a price, and when positive run `check_exit_conditions`, persisting its
mutations and collecting the close order of a firing verdict. -/
def tick_one (now : ℚ) (f : Fetcher)
    (acc : EngineState × SessionState × List (String × String × ℚ))
    (mp : String × Position) :
    EngineState × SessionState × List (String × String × ℚ) :=
  let e := acc.1
  let s := acc.2.1
  let closes := acc.2.2
  let p := f.price mp.2.token
  if 0 < p then
    let r := check_exit_conditions s.turbo_mode (alookup e.quick_scalp_targets mp.1)
      now (alookup e.price_history mp.1) mp.2 p
    (⟨e.cfg,
      (match r.hist with
       | some h => aupsert e.price_history mp.1 h
       | none => e.price_history),
      e.quick_scalp_targets⟩,
     { s with
        active_positions := aupsert s.active_positions mp.1 r.pos,
        equity := s.equity + r.equity_delta,
        daily_pnl := s.daily_pnl + r.daily_pnl_delta },
     closes ++ (if r.should_exit then [(mp.1, r.reason, r.pnl)] else []))
  else (e, s, closes)

/-- One iteration of the token-scanning loop of `run_trading_cycle`
(lines 444-457), with the two `break` conditions as a sticky stop flag.
The accumulator is (engine, session, bought_this_cycle, stopped). -/
def scan_step (now : ℚ) (st : EngineState × SessionState × ℕ × Bool)
    (t : Token) : EngineState × SessionState × ℕ × Bool :=
  let e := st.1
  let s := st.2.1
  let bought := st.2.2.1
  let stopped := st.2.2.2
  if stopped then st
  else if e.cfg.maxConcurrentPositions ≤ s.active_positions.length then
    (e, s, bought, true)
  else if s.equity < calculate_position_size t then (e, s, bought, false)
  else if 8 ≤ bought then (e, s, bought, true)
  else
    let dec := should_buy_token e.cfg s.seen_tokens
      (s.active_positions.map Prod.fst) s.daily_pnl t
    let s1 := { s with seen_tokens := dec.2 }
    if dec.1 then
      match enter_position_s e s1 now t with
      | some es => (es.1, es.2, bought + 1, false)
      | none => (e, s1, bought, false)
    else (e, s1, bought, false)

/-- `HighVolumeTradingEngine.run_trading_cycle` (lines 392-463).
`now` is `time.time()` = `datetime.now()` in seconds.  Order as in the
source: the bot-running gate, the daily-loss gate (which switches the bot
off entirely), the cycle-delay gate, the bulk price refresh, the exit scan
over a snapshot of the open positions, the queued closes, and the token
scan.  The seen-token cache trim keeps the most recent 400 entries (CPython
set iteration order is arbitrary; the kept subset is modelled as the last
400 by insertion). -/
def run_trading_cycle (e : EngineState) (s : SessionState) (f : Fetcher)
    (now : ℚ) : EngineState × SessionState :=
  if s.bot_running = false then (e, s)
  else if s.daily_pnl ≤ MAX_DAILY_LOSS then (e, { s with bot_running := false })
  else if now - s.last_update < CYCLE_DELAY then (e, s)
  else
    let s1 := { s with last_update := now }
    let s2 :=
      if now - s1.last_price_update ≥ PRICE_UPDATE_INTERVAL then
        update_all_prices { s1 with last_price_update := now } f
      else s1
    let scanned := s2.active_positions.foldl (tick_one now f) (e, s2, [])
    let closed := scanned.2.2.foldl
      (fun (es : EngineState × SessionState) c =>
        close_position es.1 es.2 c.1 c.2.1 c.2.2 now)
      (scanned.1, scanned.2.1)
    let e3 := closed.1
    let s4 := closed.2
    if now - s4.last_token_check ≥ e3.cfg.scanInterval then
      let s5 := { s4 with last_token_check := now }
      if s5.equity ≥ BASE_POSITION_SIZE then
        let sc := (f.tokens.take 20).foldl (scan_step now) (e3, s5, 0, false)
        let s6 := sc.2.1
        (sc.1,
         if 800 < s6.seen_tokens.length then
           { s6 with seen_tokens := lastN 400 s6.seen_tokens }
         else s6)
      else (e3, s5)
    else (e3, s4)

/-! ### The specification's Accounting Function (for refinement claims) -/

/-- Modelled from the spec: the Accounting Function
`computeUnrealizedPnl(position, currentMarketPrice, config)` of spec §4.2,
which `trading_engine.py` does not contain as a unit — stated here verbatim
from the spec's six steps so the code's P&L arithmetic can be compared with
it.  Arguments are the position fields the spec names (`unitsHeld`,
`unitsAlreadySold`, `proceedsFromPartialClose`, `positionSizeCurrency`) and
the config's slippage and flat fee.  Returns `(pnl, netProceedsIfClosedNow)`. -/
def spec_computeUnrealizedPnl (unitsHeld unitsAlreadySold positionSizeCurrency
    proceedsFromPartialClose slippagePct transactionFee currentMarketPrice : ℚ) :
    ℚ × ℚ :=
  let unitsRemaining := unitsHeld - unitsAlreadySold
  if unitsRemaining ≤ 0 then (0, 0)
  else
    let exitFillPrice := currentMarketPrice * (1 - slippagePct)
    let grossProceeds := unitsRemaining * exitFillPrice
    let netProceeds := grossProceeds - transactionFee
    let totalProceeds := netProceeds + proceedsFromPartialClose
    (totalProceeds - positionSizeCurrency, netProceeds)

/-! ### Structural lemmas about the exit evaluator -/

theorem arm_trailing_partial_sold (pos : Position) (p : ℚ) :
    (arm_trailing pos p).partial_sold = pos.partial_sold := by
  unfold arm_trailing; split <;> rfl

theorem arm_trailing_counter (pos : Position) (p : ℚ) :
    (arm_trailing pos p).consecutive_no_change_periods
      = pos.consecutive_no_change_periods := by
  unfold arm_trailing; split <;> rfl

theorem arm_trailing_tokens (pos : Position) (p : ℚ) :
    (arm_trailing pos p).tokens_bought = pos.tokens_bought := by
  unfold arm_trailing; split <;> rfl

theorem quick_scalp_verdict_shape (pos : Position) (scalp : Option ℚ)
    (now pc : ℚ) (r : String)
    (h : quick_scalp_verdict pos scalp now pc = some r) :
    r = "QUICK_SCALP" ∨ r = "SCALP_TIMEOUT" := by
  unfold quick_scalp_verdict at h
  split at h
  · cases scalp with
    | some t0 => simp only [] at h; split_ifs at h <;> simp_all
    | none => simp at h
  · simp at h

theorem check_exit_trailing_stop_eq (turbo : Bool) (scalp : Option ℚ)
    (now : ℚ) (hist0 : Option (List ℚ)) (pos : Position) (p : ℚ) :
    (check_exit_conditions turbo scalp now hist0 pos p).pos.trailing_stop
      = (arm_trailing { pos with current_price := p } p).trailing_stop := by
  unfold check_exit_conditions
  cases hq : quick_scalp_verdict pos scalp now (percent_change pos p) <;>
    simp only [hq] <;> split_ifs <;> rfl

/-! ### C7 -/

/-- C7: a candidate whose mint already has an open position is rejected by
`should_buy_token` unconditionally, whatever its score or any other field. -/
theorem c7_no_reentry_while_open (cfg : Settings) (seen active : List String)
    (daily_pnl : ℚ) (t : Token) (h : t.mint ∈ active) :
    (should_buy_token cfg seen active daily_pnl t).1 = false := by
  unfold should_buy_token
  rw [if_pos (Or.inr h)]

/-- A sample scored candidate. -/
def tokA : Token :=
  { mint := "A", symbol := "AAA", price_usd := 1, score := 99,
    price_change_1h := 50, price_change_5m := 10, market_cap := 100000,
    liquidity := 50000, volume_24h := 600000 }

theorem c7_no_reentry_while_open_witness :
    tokA.mint ∈ ["A"] ∧
    (should_buy_token NORMAL_SETTINGS [] ["A"] 0 tokA).1 = false :=
  ⟨by decide, c7_no_reentry_while_open NORMAL_SETTINGS [] ["A"] 0 tokA (by decide)⟩

/-! ### C6 -/

/-- C6: once a position is partially closed, a later exit evaluation keeps
`partial_sold` true and never yields the partial-close verdict again. -/
theorem c6_partial_close_once (turbo : Bool) (scalp : Option ℚ) (now : ℚ)
    (hist0 : Option (List ℚ)) (pos : Position) (p : ℚ)
    (h : pos.partial_sold = true) :
    (check_exit_conditions turbo scalp now hist0 pos p).pos.partial_sold = true ∧
    (check_exit_conditions turbo scalp now hist0 pos p).reason ≠ "PARTIAL_8%" := by
  unfold check_exit_conditions
  cases hq : quick_scalp_verdict pos scalp now (percent_change pos p) with
  | some r =>
    simp only [hq]
    refine ⟨by simp [arm_trailing_partial_sold, h], ?_⟩
    rcases quick_scalp_verdict_shape pos scalp now (percent_change pos p) r hq with
      h1 | h1 <;> simp [h1]
  | none =>
    simp only [hq]
    rw [if_neg (by simp [h])]
    split_ifs <;>
      simp_all [arm_trailing_partial_sold, h]

/-- A sample partially-closed position. -/
def posPartial : Position :=
  { token := tokA, entry_price := 1, entry_time := 0, current_price := 1,
    position_size := 20, tokens_bought := 12, highest_price := 2,
    partial_sold := true, consecutive_no_change_periods := 0, score := 99,
    trailing_stop := none, is_quick_scalp := false }

theorem c6_partial_close_once_witness :
    posPartial.partial_sold = true ∧
    (check_exit_conditions false none 0 none posPartial 1).pos.partial_sold = true ∧
    (check_exit_conditions false none 0 none posPartial 1).reason ≠ "PARTIAL_8%" :=
  ⟨by decide,
   (c6_partial_close_once false none 0 none posPartial 1 (by decide)).1,
   (c6_partial_close_once false none 0 none posPartial 1 (by decide)).2⟩

/-! ### C10 -/

theorem alookup_map_value {β γ : Type} (g : β → γ) :
    ∀ (l : List (String × β)) (k : String) (v : β),
      alookup l k = some v →
      alookup (l.map fun mp => (mp.1, g mp.2)) k = some (g v) := by
  intro l
  induction l with
  | nil => intro k v h; simp [alookup] at h
  | cons hd tl ih =>
    intro k v h
    by_cases hk : hd.1 = k
    · rw [alookup, if_pos hk] at h
      cases h
      simp only [List.map_cons, alookup, if_pos hk]
    · rw [alookup, if_neg hk] at h
      simp only [List.map_cons, alookup, if_neg hk]
      exact ih k v h

/-- C10: the bulk price refresh drops non-positive fetched prices and
fetched prices deviating from the stored current price by a relative ratio
of 0.7 or more, leaving the position untouched; an accepted price replaces
`current_price` and raises `highest_price` only past its former maximum,
and the loop applies exactly this update to every open position. -/
theorem c10_price_refresh (pos : Position) (np : ℚ) :
    (np ≤ 0 → update_price_one pos np = pos) ∧
    (7/10 ≤ |np - pos.current_price| / pos.current_price →
      update_price_one pos np = pos) ∧
    (0 < np → pos.current_price ≠ 0 →
      |np - pos.current_price| / pos.current_price < 7/10 →
      update_price_one pos np =
        { pos with
            current_price := np,
            highest_price :=
              if pos.highest_price < np then np else pos.highest_price }) ∧
    (∀ (s : SessionState) (f : Fetcher) (mint : String) (q : Position),
      alookup s.active_positions mint = some q →
      alookup (update_all_prices s f).active_positions mint =
        some (update_price_one q (f.price q.token))) := by
  refine ⟨?_, ?_, ?_, ?_⟩
  · intro h
    unfold update_price_one
    rw [if_neg (by linarith)]
  · intro h
    by_cases h1 : 0 < np
    · rw [update_price_one, if_pos h1]
      by_cases h2 : pos.current_price = 0
      · rw [if_pos h2]
      · rw [if_neg h2, if_neg (by linarith)]
    · rw [update_price_one, if_neg h1]
  · intro h1 h2 h3
    unfold update_price_one
    rw [if_pos h1, if_neg h2, if_pos h3]
  · intro s f mint q h
    unfold update_all_prices
    exact alookup_map_value (fun v => update_price_one v (f.price v.token))
      s.active_positions mint q h

theorem c10_price_refresh_witness :
    (7/10 : ℚ) ≤ |2 - posPartial.current_price| / posPartial.current_price ∧
    update_price_one posPartial 2 = posPartial :=
  ⟨by norm_num [posPartial], (c10_price_refresh posPartial 2).2.1 (by norm_num [posPartial])⟩

/-! ### C9 -/

theorem qsv_quick (pos : Position) (t0 now pc : ℚ)
    (hq : pos.is_quick_scalp = true) (h2 : pc ≥ 2)
    (h52 : pc ≥ 5 ∨ now - t0 ≥ SCALP_EXIT_TIME) :
    quick_scalp_verdict pos (some t0) now pc = some "QUICK_SCALP" := by
  simp only [quick_scalp_verdict, hq, if_true]
  rw [if_pos h52, if_pos h2]

theorem qsv_timeout (pos : Position) (t0 now pc : ℚ)
    (hq : pos.is_quick_scalp = true) (ht : now - t0 ≥ 120) (h2 : ¬pc ≥ 2) :
    quick_scalp_verdict pos (some t0) now pc = some "SCALP_TIMEOUT" := by
  simp only [quick_scalp_verdict, hq, if_true]
  rw [if_pos (Or.inr (by rw [SCALP_EXIT_TIME]; exact ht)), if_neg h2, if_pos ht]

/-- C9: quick-scalp positions are screened by the scalp exit ahead of every
other rule: at +5% (or at +2% once 120 s have passed since the scalp target
was set at entry) the verdict is a full close with reason QUICK_SCALP, after
120 s below +2% it is SCALP_TIMEOUT, so 120 s after entry the next
evaluation always fully closes the position; and `enter_position` flags
exactly the candidates with volume24h > 200000, priceChange5m > 1 and
liquidity > 30000. -/
theorem c9_quick_scalp (turbo : Bool) (t0 now : ℚ) (hist0 : Option (List ℚ))
    (pos : Position) (p : ℚ) (hq : pos.is_quick_scalp = true) :
    (percent_change pos p ≥ 5 →
      (check_exit_conditions turbo (some t0) now hist0 pos p).should_exit = true ∧
      (check_exit_conditions turbo (some t0) now hist0 pos p).reason = "QUICK_SCALP") ∧
    (now - t0 ≥ 120 → percent_change pos p ≥ 2 →
      (check_exit_conditions turbo (some t0) now hist0 pos p).should_exit = true ∧
      (check_exit_conditions turbo (some t0) now hist0 pos p).reason = "QUICK_SCALP") ∧
    (now - t0 ≥ 120 → ¬percent_change pos p ≥ 2 →
      (check_exit_conditions turbo (some t0) now hist0 pos p).should_exit = true ∧
      (check_exit_conditions turbo (some t0) now hist0 pos p).reason = "SCALP_TIMEOUT") ∧
    (now - t0 ≥ 120 →
      (check_exit_conditions turbo (some t0) now hist0 pos p).should_exit = true) ∧
    (∀ (tk : Token) (te : ℚ) (q : Position), enter_position te tk = some q →
      q.is_quick_scalp = is_quick_scalp_candidate tk) := by
  refine ⟨?_, ?_, ?_, ?_, ?_⟩
  · intro h5
    have hv := qsv_quick pos t0 now (percent_change pos p) hq
      (by linarith) (Or.inl h5)
    unfold check_exit_conditions
    simp only [hv]
    exact ⟨trivial, trivial⟩
  · intro ht h2
    have hv := qsv_quick pos t0 now (percent_change pos p) hq h2
      (Or.inr (by rw [SCALP_EXIT_TIME]; exact ht))
    unfold check_exit_conditions
    simp only [hv]
    exact ⟨trivial, trivial⟩
  · intro ht h2
    have hv := qsv_timeout pos t0 now (percent_change pos p) hq ht h2
    unfold check_exit_conditions
    simp only [hv]
    exact ⟨trivial, trivial⟩
  · intro ht
    by_cases h2 : percent_change pos p ≥ 2
    · have hv := qsv_quick pos t0 now (percent_change pos p) hq h2
        (Or.inr (by rw [SCALP_EXIT_TIME]; exact ht))
      unfold check_exit_conditions
      simp only [hv]
    · have hv := qsv_timeout pos t0 now (percent_change pos p) hq ht h2
      unfold check_exit_conditions
      simp only [hv]
  · intro tk te q h
    unfold enter_position at h
    split at h
    · exact absurd h (by simp)
    · cases h; rfl

/-- A sample quick-scalp candidate and the position entered from it. -/
def tokScalp : Token :=
  { mint := "S", symbol := "SSS", price_usd := 1, score := 80,
    price_change_1h := 5, price_change_5m := 2, market_cap := 100000,
    liquidity := 50000, volume_24h := 600000 }

def posScalp : Position :=
  { token := tokScalp, entry_price := 201/200, entry_time := 0,
    current_price := 201/200, position_size := 40,
    tokens_bought := (40 - 1/4) / (201/200), highest_price := 201/200,
    partial_sold := false, consecutive_no_change_periods := 0, score := 80,
    trailing_stop := none, is_quick_scalp := true }

theorem c9_quick_scalp_witness :
    posScalp.is_quick_scalp = true ∧
    percent_change posScalp (11/10) ≥ 5 ∧
    (check_exit_conditions false (some 0) 1 none posScalp (11/10)).should_exit = true ∧
    (check_exit_conditions false (some 0) 1 none posScalp (11/10)).reason = "QUICK_SCALP" :=
  ⟨by decide, by norm_num [percent_change, posScalp],
   ((c9_quick_scalp false 0 1 none posScalp (11/10) (by decide)).1
      (by norm_num [percent_change, posScalp])).1,
   ((c9_quick_scalp false 0 1 none posScalp (11/10) (by decide)).1
      (by norm_num [percent_change, posScalp])).2⟩

/-! ### C5 -/

theorem qsv_none_of_not_scalp (pos : Position) (scalp : Option ℚ) (now pc : ℚ)
    (h : pos.is_quick_scalp = false) :
    quick_scalp_verdict pos scalp now pc = none := by
  unfold quick_scalp_verdict
  simp [h]

theorem trailing_fires_after_arm_none (q : Position) (p : ℚ)
    (hts : q.trailing_stop = none) (hp : 0 < p) :
    trailing_fires (arm_trailing q p).trailing_stop p = false := by
  unfold arm_trailing
  by_cases hh : q.highest_price < p
  · rw [if_pos hh]
    by_cases h20 : 20 < percent_change q p
    · have h1 : ¬p ≤ p * (92/100) := by linarith
      have h0 : ¬p * (92/100) = 0 := by
        have : 0 < p * (92/100) := by linarith
        exact ne_of_gt this
      simp [trailing_fires, if_pos h20, h1, h0]
    · by_cases h15 : 15 < percent_change q p
      · have h1 : ¬p ≤ p * (95/100) := by linarith
        have h0 : ¬p * (95/100) = 0 := by
          have : 0 < p * (95/100) := by linarith
          exact ne_of_gt this
        simp [trailing_fires, if_neg h20, if_pos h15, h1, h0]
      · simp [trailing_fires, if_neg h20, if_neg h15, hts]
  · rw [if_neg hh]
    simp [trailing_fires, hts]

/-- C5 (amended): a position eligible at once for the hard take-profit
(percent change at or above 20) and the timeout (held at or past
`MAX_TRADE_DURATION`) receives the TAKE_PROFIT_20% verdict, not TIMEOUT —
provided none of the higher-priority rules (quick-scalp exit, partial
take-profit, no-change exit, trailing stop) fires first. -/
theorem c5_take_profit_beats_timeout (turbo : Bool) (scalp : Option ℚ)
    (now : ℚ) (hist0 : Option (List ℚ)) (pos : Position) (p : ℚ)
    (hTP : percent_change pos p ≥ 20)
    (hTO : now - pos.entry_time ≥ MAX_TRADE_DURATION)
    (hqs : pos.is_quick_scalp = false)
    (hps : pos.partial_sold = true)
    (hts : pos.trailing_stop = none)
    (hp : 0 < p)
    (hnc : (no_change_step (histUpdate hist0 p) p
        pos.consecutive_no_change_periods turbo).1 = false) :
    (check_exit_conditions turbo scalp now hist0 pos p).should_exit = true ∧
    (check_exit_conditions turbo scalp now hist0 pos p).reason = "TAKE_PROFIT_20%" := by
  have hv := qsv_none_of_not_scalp pos scalp now (percent_change pos p) hqs
  have htf := trailing_fires_after_arm_none { pos with current_price := p } p hts hp
  unfold check_exit_conditions
  simp only [hv]
  rw [if_neg (by simp [hps])]
  simp only [arm_trailing_counter, hnc, htf]
  simp only [Bool.false_eq_true, if_false]
  rw [if_pos hTP]
  exact ⟨rfl, rfl⟩

/-- A token with no quick-scalp profile (zero volume / no momentum). -/
def tokQuiet : Token :=
  { mint := "Q", symbol := "QQQ", price_usd := 1, score := 60,
    price_change_1h := 2, price_change_5m := 1, market_cap := 100000,
    liquidity := 40000, volume_24h := 0 }

/-- A never-partially-closed position that is simultaneously take-profit-
and timeout-eligible at price 5/4 and time 700. -/
def posDual : Position :=
  { token := tokQuiet, entry_price := 1, entry_time := 0, current_price := 1,
    position_size := 20, tokens_bought := 19, highest_price := 2,
    partial_sold := false, consecutive_no_change_periods := 0, score := 60,
    trailing_stop := none, is_quick_scalp := false }

/-- C5 (counterexample): the claim fails as stated — this position is
eligible for both the hard take-profit (percent change 25 ≥ 20) and the
timeout (held 700 s ≥ 600 s), yet the evaluation returns the partial
take-profit verdict (reason PARTIAL_8%, not a full close), because the
partial take-profit is checked before the standard exits. -/
theorem c5_counterexample :
    percent_change posDual (5/4) ≥ 20 ∧
    (700 : ℚ) - posDual.entry_time ≥ MAX_TRADE_DURATION ∧
    (check_exit_conditions false none 700 none posDual (5/4)).reason = "PARTIAL_8%" ∧
    (check_exit_conditions false none 700 none posDual (5/4)).should_exit = false := by
  refine ⟨by norm_num [percent_change, posDual],
    by norm_num [posDual, MAX_TRADE_DURATION], ?_, ?_⟩ <;>
    norm_num [check_exit_conditions, quick_scalp_verdict, percent_change,
      posDual, tokQuiet, histUpdate, no_change_step, arm_trailing,
      trailing_fires, momentum_fires, volume_decay_fires, pnl_formula,
      partial_pnl_of, MAX_TRADE_DURATION, SCALP_EXIT_TIME, SLIPPAGE,
      TRANSACTION_FEE, lastN, listMax, listMin, strictlyDown4]

theorem c5_take_profit_beats_timeout_witness :
    percent_change posPartial (5/4) ≥ 20 ∧
    (700 : ℚ) - posPartial.entry_time ≥ MAX_TRADE_DURATION ∧
    (check_exit_conditions false none 700 none posPartial (5/4)).should_exit = true ∧
    (check_exit_conditions false none 700 none posPartial (5/4)).reason = "TAKE_PROFIT_20%" :=
  ⟨by norm_num [percent_change, posPartial],
   by norm_num [posPartial, MAX_TRADE_DURATION],
   (c5_take_profit_beats_timeout false none 700 none posPartial (5/4)
      (by norm_num [percent_change, posPartial])
      (by norm_num [posPartial, MAX_TRADE_DURATION])
      (by decide) (by decide) (by decide) (by norm_num)
      (by decide)).1,
   (c5_take_profit_beats_timeout false none 700 none posPartial (5/4)
      (by norm_num [percent_change, posPartial])
      (by norm_num [posPartial, MAX_TRADE_DURATION])
      (by decide) (by decide) (by decide) (by norm_num)
      (by decide)).2⟩

/-! ### C3 -/

/-- C3 (amended): every percentage comparison of the exit rules uses
`(p − entryFillPrice)/entryFillPrice·100` against the post-slippage entry
fill price that `enter_position` stores as `entry_price` — not against the
pre-slippage scan price: the stored basis is `price_usd·(1+SLIPPAGE)`, and
(when no higher-priority rule fires) the hard take-profit verdict appears
exactly when that fill-price-based percentage reaches 20. -/
theorem c3_percent_base_is_fill_price :
    (∀ (t : Token) (te : ℚ) (q : Position), enter_position te t = some q →
      q.entry_price = t.price_usd * (1 + SLIPPAGE) ∧
      ∀ p, percent_change q p
          = (p - t.price_usd * (1 + SLIPPAGE)) / (t.price_usd * (1 + SLIPPAGE)) * 100) ∧
    (∀ (turbo : Bool) (scalp : Option ℚ) (now : ℚ) (hist0 : Option (List ℚ))
        (pos : Position) (p : ℚ),
      pos.is_quick_scalp = false → pos.partial_sold = true →
      pos.trailing_stop = none → 0 < p →
      (no_change_step (histUpdate hist0 p) p
          pos.consecutive_no_change_periods turbo).1 = false →
      ((check_exit_conditions turbo scalp now hist0 pos p).reason = "TAKE_PROFIT_20%"
        ↔ percent_change pos p ≥ 20)) := by
  constructor
  · intro t te q h
    unfold enter_position at h
    split at h
    · exact absurd h (by simp)
    · cases h
      exact ⟨rfl, fun p => rfl⟩
  · intro turbo scalp now hist0 pos p hqs hps hts hp hnc
    have hv := qsv_none_of_not_scalp pos scalp now (percent_change pos p) hqs
    have htf := trailing_fires_after_arm_none { pos with current_price := p } p hts hp
    unfold check_exit_conditions
    simp only [hv]
    rw [if_neg (by simp [hps])]
    simp only [arm_trailing_counter, hnc, htf]
    simp only [Bool.false_eq_true, if_false]
    by_cases hTP : percent_change pos p ≥ 20
    · rw [if_pos hTP]
      simpa using hTP
    · rw [if_neg hTP]
      split_ifs <;> simp_all

/-- The pre-slippage base-price scenario token: scanned at exactly 1. -/
def tokC3 : Token :=
  { mint := "C", symbol := "CCC", price_usd := 1, score := 40,
    price_change_1h := 0, price_change_5m := 0, market_cap := 0,
    liquidity := 0, volume_24h := 0 }

/-- The position `enter_position` builds from `tokC3`: fill price 1.005. -/
def posC3a : Position :=
  { token := tokC3, entry_price := 201/200, entry_time := 0,
    current_price := 201/200, position_size := 20,
    tokens_bought := (20 - 1/4) / (201/200), highest_price := 201/200,
    partial_sold := false, consecutive_no_change_periods := 0, score := 40,
    trailing_stop := none, is_quick_scalp := false }

/-- `posC3a` after the partial close its first evaluation (at price 1.1)
performs. -/
def posC3b : Position :=
  { token := tokC3, entry_price := 201/200, entry_time := 0,
    current_price := 11/10, position_size := 20,
    tokens_bought := (20 - 1/4) / (201/200) * (6/10), highest_price := 11/10,
    partial_sold := true, consecutive_no_change_periods := 0, score := 40,
    trailing_stop := none, is_quick_scalp := false }

/-- C3 (counterexample): entering at scan price 1 stores fill price 1.005;
at market price 1.2 the pre-slippage percentage is 20 ≥ 20, so under the
claim the hard take-profit must fire — but the evaluation computes 19.40…%
against the fill price and holds the (already partially closed) position. -/
theorem c3_counterexample :
    enter_position 0 tokC3 = some posC3a ∧
    ((check_exit_conditions false none 1 (some [201/200]) posC3a (11/10)).reason
        = "PARTIAL_8%") ∧
    ((check_exit_conditions false none 1 (some [201/200]) posC3a (11/10)).pos
        = posC3b) ∧
    ((check_exit_conditions false none 1 (some [201/200]) posC3a (11/10)).hist
        = some [201/200, 11/10]) ∧
    (6/5 - tokC3.price_usd) / tokC3.price_usd * 100 ≥ 20 ∧
    percent_change posC3b (6/5) < 20 ∧
    ((check_exit_conditions false none 10 (some [201/200, 11/10]) posC3b (6/5)).reason
        = "HOLDING") ∧
    ((check_exit_conditions false none 10 (some [201/200, 11/10]) posC3b (6/5)).should_exit
        = false) := by
  refine ⟨?_, ?_, ?_, ?_, ?_, ?_, ?_, ?_⟩ <;>
    norm_num [enter_position, calculate_position_size, is_quick_scalp_candidate,
      check_exit_conditions, quick_scalp_verdict, percent_change,
      posC3a, posC3b, tokC3, histUpdate, no_change_step, arm_trailing,
      trailing_fires, momentum_fires, volume_decay_fires, pnl_formula,
      partial_pnl_of, MAX_TRADE_DURATION, SCALP_EXIT_TIME, SLIPPAGE,
      TRANSACTION_FEE, BASE_POSITION_SIZE, MAX_POSITION_SIZE,
      lastN, listMax, listMin, strictlyDown4]

theorem c3_percent_base_is_fill_price_witness :
    posC3a.entry_price = tokC3.price_usd * (1 + SLIPPAGE) ∧
    ((check_exit_conditions false none 700 none posPartial (5/4)).reason = "TAKE_PROFIT_20%"
      ↔ percent_change posPartial (5/4) ≥ 20) :=
  ⟨(c3_percent_base_is_fill_price.1 tokC3 0 posC3a
      (by norm_num [enter_position, calculate_position_size,
        is_quick_scalp_candidate, posC3a, tokC3, SLIPPAGE, TRANSACTION_FEE,
        BASE_POSITION_SIZE, MAX_POSITION_SIZE])).1,
   c3_percent_base_is_fill_price.2 false none 700 none posPartial (5/4)
     (by decide) (by decide) (by decide) (by norm_num) (by decide)⟩

/-! ### C2 -/

/-- C2 (amended): other than on the partial-take-profit branch (whose
verdict carries the partial P&L), the exit evaluation always returns the
P&L of `pnl_formula`: remaining tokens priced at `p·(1−SLIPPAGE)` with the
gross value and the position size each halved when `partial_sold` is set,
minus the flat fee charged once; for a never-partially-closed position with
a positive token balance this agrees with the spec's Accounting Function
(with `unitsAlreadySold = 0` and no partial proceeds), but the code keeps
no `unitsAlreadySold`/`proceedsFromPartialClose` fields and has no
`(0, 0)` short-circuit for an empty balance. -/
theorem c2_exit_pnl_formula (turbo : Bool) (scalp : Option ℚ) (now : ℚ)
    (hist0 : Option (List ℚ)) (pos : Position) (p : ℚ) :
    ((check_exit_conditions turbo scalp now hist0 pos p).reason ≠ "PARTIAL_8%" →
      (check_exit_conditions turbo scalp now hist0 pos p).pnl = pnl_formula pos p) ∧
    (pos.partial_sold = false → 0 < pos.tokens_bought →
      pnl_formula pos p =
        (spec_computeUnrealizedPnl pos.tokens_bought 0 pos.position_size 0
          SLIPPAGE TRANSACTION_FEE p).1) := by
  constructor
  · intro h
    unfold check_exit_conditions at h ⊢
    cases hq : quick_scalp_verdict pos scalp now (percent_change pos p) with
    | some r => simp only [hq]
    | none =>
      simp only [hq] at h ⊢
      by_cases hpart : pos.partial_sold = false ∧ percent_change pos p ≥ 8
      · rw [if_pos hpart] at h
        exact absurd rfl h
      · rw [if_neg hpart] at h ⊢
        split_ifs <;> rfl
  · intro hps htb
    have hnot : ¬(pos.tokens_bought - 0 ≤ 0) := by linarith
    simp only [pnl_formula, spec_computeUnrealizedPnl, hps, Bool.false_eq_true,
      if_false, if_neg hnot]
    ring

/-- A position with an empty token balance (`unitsRemaining = 0`). -/
def posEmpty : Position :=
  { token := tokQuiet, entry_price := 1, entry_time := 0, current_price := 1,
    position_size := 20, tokens_bought := 0, highest_price := 2,
    partial_sold := false, consecutive_no_change_periods := 0, score := 60,
    trailing_stop := none, is_quick_scalp := false }

/-- C2 (counterexample): with `unitsRemaining ≤ 0` the spec's Accounting
Function returns `(0, 0)`, but the exit evaluation still charges the fee
and the position size, returning −81/4 ≠ 0 for the same state. -/
theorem c2_counterexample :
    posEmpty.tokens_bought - 0 ≤ 0 ∧
    spec_computeUnrealizedPnl posEmpty.tokens_bought 0 posEmpty.position_size 0
      SLIPPAGE TRANSACTION_FEE 1 = (0, 0) ∧
    (check_exit_conditions false none 0 none posEmpty 1).reason = "HOLDING" ∧
    (check_exit_conditions false none 0 none posEmpty 1).pnl = -(81/4) ∧
    ((-(81/4) : ℚ) ≠ 0) := by
  refine ⟨?_, ?_, ?_, ?_, ?_⟩ <;>
    norm_num [spec_computeUnrealizedPnl, check_exit_conditions,
      quick_scalp_verdict, percent_change, posEmpty, tokQuiet, histUpdate,
      no_change_step, arm_trailing, trailing_fires, momentum_fires,
      volume_decay_fires, pnl_formula, partial_pnl_of, MAX_TRADE_DURATION,
      SCALP_EXIT_TIME, SLIPPAGE, TRANSACTION_FEE, lastN, listMax, listMin,
      strictlyDown4]

theorem c2_exit_pnl_formula_witness :
    (check_exit_conditions false none 0 none posDual 1).pnl = pnl_formula posDual 1 ∧
    pnl_formula posDual 1 =
      (spec_computeUnrealizedPnl posDual.tokens_bought 0 posDual.position_size 0
        SLIPPAGE TRANSACTION_FEE 1).1 :=
  ⟨(c2_exit_pnl_formula false none 0 none posDual 1).1
      (by
        norm_num [check_exit_conditions, quick_scalp_verdict, percent_change,
          posDual, tokQuiet, histUpdate, no_change_step, arm_trailing,
          trailing_fires, momentum_fires, volume_decay_fires, pnl_formula,
          partial_pnl_of, MAX_TRADE_DURATION, SCALP_EXIT_TIME, SLIPPAGE,
          TRANSACTION_FEE, lastN, listMax, listMin, strictlyDown4]
        all_goals decide),
   (c2_exit_pnl_formula false none 0 none posDual 1).2 (by decide)
      (by norm_num [posDual])⟩

/-! ### C8 -/

theorem percent_change_set_current (pos : Position) (p q : ℚ) :
    percent_change { pos with current_price := q } p = percent_change pos p := rfl

/-- C8 (amended): the trailing stop is (re-)armed only on a new high with an
unrealized gain above 15% over the entry fill price, at 5% below the price
for gains in (15, 20] and at 8% below the price for gains above 20 — the
distance widens, it does not tighten, as the gain grows; once armed, a
price at or below the stop (with no new high above 15% gain re-arming it,
and no quick-scalp, partial-take-profit or no-change rule firing first)
produces a full close with reason TRAILING_STOP. -/
theorem c8_trailing_stop (turbo : Bool) (scalp : Option ℚ) (now : ℚ)
    (hist0 : Option (List ℚ)) (pos : Position) (p : ℚ) :
    (pos.highest_price < p → 20 < percent_change pos p →
      (check_exit_conditions turbo scalp now hist0 pos p).pos.trailing_stop
        = some (p * (92/100))) ∧
    (pos.highest_price < p → 15 < percent_change pos p →
      percent_change pos p ≤ 20 →
      (check_exit_conditions turbo scalp now hist0 pos p).pos.trailing_stop
        = some (p * (95/100))) ∧
    (pos.highest_price < p → percent_change pos p ≤ 15 →
      (check_exit_conditions turbo scalp now hist0 pos p).pos.trailing_stop
        = pos.trailing_stop) ∧
    (¬pos.highest_price < p →
      (check_exit_conditions turbo scalp now hist0 pos p).pos.trailing_stop
        = pos.trailing_stop) ∧
    (∀ ts : ℚ, pos.trailing_stop = some ts → ts ≠ 0 → p ≤ ts →
      p ≤ pos.highest_price →
      pos.is_quick_scalp = false →
      (pos.partial_sold = true ∨ percent_change pos p < 8) →
      (no_change_step (histUpdate hist0 p) p
          pos.consecutive_no_change_periods turbo).1 = false →
      (check_exit_conditions turbo scalp now hist0 pos p).should_exit = true ∧
      (check_exit_conditions turbo scalp now hist0 pos p).reason = "TRAILING_STOP") := by
  refine ⟨?_, ?_, ?_, ?_, ?_⟩
  · intro hh h20
    rw [check_exit_trailing_stop_eq]
    unfold arm_trailing
    simp only [percent_change_set_current]
    rw [if_pos (by simpa using hh)]
    simp only [if_pos h20]
  · intro hh h15 h20
    rw [check_exit_trailing_stop_eq]
    unfold arm_trailing
    simp only [percent_change_set_current]
    rw [if_pos (by simpa using hh)]
    simp only [if_neg (by linarith : ¬20 < percent_change pos p), if_pos h15]
  · intro hh h15
    rw [check_exit_trailing_stop_eq]
    unfold arm_trailing
    simp only [percent_change_set_current]
    rw [if_pos (by simpa using hh)]
    simp only [if_neg (by linarith : ¬20 < percent_change pos p),
      if_neg (by linarith : ¬15 < percent_change pos p)]
  · intro hh
    rw [check_exit_trailing_stop_eq]
    unfold arm_trailing
    rw [if_neg (by simpa using hh)]
  · intro ts hsome hne hple hhigh hqs hpart hnc
    have hv := qsv_none_of_not_scalp pos scalp now (percent_change pos p) hqs
    have harm : (arm_trailing { pos with current_price := p } p).trailing_stop
        = some ts := by
      unfold arm_trailing
      rw [if_neg (by simpa using not_lt.mpr hhigh)]
      exact hsome
    have hfire : trailing_fires
        (arm_trailing { pos with current_price := p } p).trailing_stop p = true := by
      rw [harm]
      simp only [trailing_fires]
      rw [if_neg hne]
      simpa using hple
    unfold check_exit_conditions
    simp only [hv]
    rw [if_neg (by
      rintro ⟨h1, h2⟩
      rcases hpart with h | h
      · rw [h] at h1; exact absurd h1 (by simp)
      · linarith)]
    simp only [arm_trailing_counter, hnc, Bool.false_eq_true, if_false]
    simp only [hfire, if_true]
    exact ⟨trivial, trivial⟩

/-- A position up 18% on a fresh high at price 1.18. -/
def posGain18 : Position :=
  { token := tokQuiet, entry_price := 1, entry_time := 0, current_price := 1,
    position_size := 20, tokens_bought := 19, highest_price := 1,
    partial_sold := true, consecutive_no_change_periods := 0, score := 60,
    trailing_stop := none, is_quick_scalp := false }

/-- A position up 25% on a fresh high at price 1.25. -/
def posGain25 : Position :=
  { token := tokQuiet, entry_price := 1, entry_time := 0, current_price := 1,
    position_size := 20, tokens_bought := 19, highest_price := 1,
    partial_sold := true, consecutive_no_change_periods := 0, score := 60,
    trailing_stop := none, is_quick_scalp := false }

/-- C8 (counterexample): a gain of 18% arms the stop 5% below price, a
larger gain of 25% arms it 8% below price — the trailing distance grows
with the gain, so it is not "tighter as the gain increases". -/
theorem c8_counterexample :
    ((check_exit_conditions false none 0 none posGain18 (118/100)).pos.trailing_stop
        = some (118/100 * (95/100))) ∧
    ((check_exit_conditions false none 0 none posGain25 (5/4)).pos.trailing_stop
        = some (5/4 * (92/100))) ∧
    percent_change posGain18 (118/100) < percent_change posGain25 (5/4) ∧
    (118/100 - 118/100 * (95/100)) / (118/100)
      < (5/4 - 5/4 * (92/100)) / ((5/4 : ℚ)) := by
  refine ⟨?_, ?_, ?_, ?_⟩ <;>
    norm_num [check_exit_conditions, quick_scalp_verdict, percent_change,
      posGain18, posGain25, tokQuiet, histUpdate, no_change_step, arm_trailing,
      trailing_fires, momentum_fires, volume_decay_fires, pnl_formula,
      partial_pnl_of, MAX_TRADE_DURATION, SCALP_EXIT_TIME, SLIPPAGE,
      TRANSACTION_FEE, lastN, listMax, listMin, strictlyDown4]

/-- An armed position (stop at 1.14 from an earlier peak of 1.2). -/
def posArmed : Position :=
  { token := tokQuiet, entry_price := 1, entry_time := 0, current_price := 6/5,
    position_size := 20, tokens_bought := 19, highest_price := 6/5,
    partial_sold := false, consecutive_no_change_periods := 0, score := 60,
    trailing_stop := some (114/100), is_quick_scalp := false }

theorem c8_trailing_stop_witness :
    posArmed.trailing_stop = some (114/100) ∧
    (105/100 : ℚ) ≤ 114/100 ∧
    (check_exit_conditions false none 0 none posArmed (105/100)).should_exit = true ∧
    (check_exit_conditions false none 0 none posArmed (105/100)).reason = "TRAILING_STOP" :=
  ⟨rfl, by norm_num,
   ((c8_trailing_stop false none 0 none posArmed (105/100)).2.2.2.2 (114/100)
      rfl (by norm_num) (by norm_num) (by norm_num [posArmed]) (by decide)
      (Or.inr (by norm_num [percent_change, posArmed])) (by decide)).1,
   ((c8_trailing_stop false none 0 none posArmed (105/100)).2.2.2.2 (114/100)
      rfl (by norm_num) (by norm_num) (by norm_num [posArmed]) (by decide)
      (Or.inr (by norm_num [percent_change, posArmed])) (by decide)).2⟩

/-! ### C4 -/

theorem alookup_none_of_not_mem {β : Type} :
    ∀ (l : List (String × β)) (k : String),
      k ∉ l.map Prod.fst → alookup l k = none := by
  intro l
  induction l with
  | nil => intro k _; rfl
  | cons hd tl ih =>
    intro k h
    simp only [List.map_cons, List.mem_cons] at h
    push_neg at h
    rw [alookup, if_neg (fun he => h.1 he.symm)]
    exact ih k h.2

theorem alookup_aremove_self {β : Type} :
    ∀ (l : List (String × β)) (k : String),
      (l.map Prod.fst).Nodup → alookup (aremove l k) k = none := by
  intro l
  induction l with
  | nil => intro k _; rfl
  | cons hd tl ih =>
    intro k hnd
    simp only [List.map_cons, List.nodup_cons] at hnd
    rw [aremove]
    by_cases hk : hd.1 = k
    · rw [if_pos hk]
      exact alookup_none_of_not_mem tl k (hk ▸ hnd.1)
    · rw [if_neg hk, alookup, if_neg hk]
      exact ih k hnd.2

/-- C4 (amended): `close_position` does not recompute the P&L — it records
the caller-supplied `pnl` verbatim in the appended trade, credits equity
with exactly (position size, scaled by 0.6 after a partial sale) plus that
same passed-in `pnl`, adds it to the daily P&L, and deletes the position. -/
theorem c4_close_uses_passed_pnl (e : EngineState) (s : SessionState)
    (mint : String) (pos : Position) (reason : String) (v now : ℚ)
    (h : alookup s.active_positions mint = some pos)
    (hnd : (s.active_positions.map Prod.fst).Nodup) :
    ((close_position e s mint reason v now).2.equity
        = s.equity
          + (if pos.partial_sold then pos.position_size * (6/10)
             else pos.position_size) + v) ∧
    ((close_position e s mint reason v now).2.daily_pnl = s.daily_pnl + v) ∧
    ((close_position e s mint reason v now).2.trades
        = s.trades ++ [create_trade_record now pos reason v
            (if pos.partial_sold then pos.position_size * (6/10)
             else pos.position_size)]) ∧
    alookup (close_position e s mint reason v now).2.active_positions mint
        = none := by
  unfold close_position
  rw [h]
  exact ⟨rfl, rfl, rfl, alookup_aremove_self s.active_positions mint hnd⟩

/-- A one-position session holding the partially-closed `posPartial`. -/
def sC4 : SessionState :=
  { bot_running := true, turbo_mode := false, equity := 100, daily_pnl := 0,
    active_positions := [("A", posPartial)], seen_tokens := [], trades := [],
    tokens_bought_count := 1, win_streak := 0, loss_streak := 0,
    best_trade := 0, worst_trade := 0, last_update := 0,
    last_price_update := 0, last_token_check := 0 }

def eC4 : EngineState :=
  { cfg := NORMAL_SETTINGS, price_history := [("A", [1])],
    quick_scalp_targets := [] }

/-- C4 (counterexample): closing the same position with two different
caller-passed P&L values records the two different values as the realized
P&L of the appended trade (so the close cannot be recomputing it from the
position), and neither equals the Accounting-Function recomputation at the
position's last recorded current price. -/
theorem c4_counterexample :
    ((close_position eC4 sC4 "A" "TIMEOUT" 5 0).2.trades.map TradeRecord.pnl
        = [5]) ∧
    ((close_position eC4 sC4 "A" "TIMEOUT" 7 0).2.trades.map TradeRecord.pnl
        = [7]) ∧
    ((close_position eC4 sC4 "A" "TIMEOUT" 5 0).2.equity = 100 + 12 + 5) ∧
    ((spec_computeUnrealizedPnl posPartial.tokens_bought 0
        posPartial.position_size 0 SLIPPAGE TRANSACTION_FEE
        posPartial.current_price).1 = -(831/100)) ∧
    ((5 : ℚ) ≠ 7) ∧ ((5 : ℚ) ≠ -(831/100)) ∧ ((7 : ℚ) ≠ -(831/100)) := by
  refine ⟨?_, ?_, ?_, ?_, ?_, ?_, ?_⟩ <;>
    norm_num [close_position, alookup, aremove, create_trade_record,
      spec_computeUnrealizedPnl, sC4, eC4, posPartial, tokA,
      SLIPPAGE, TRANSACTION_FEE]

theorem c4_close_uses_passed_pnl_witness :
    alookup sC4.active_positions "A" = some posPartial ∧
    ((close_position eC4 sC4 "A" "TIMEOUT" 5 0).2.daily_pnl
        = sC4.daily_pnl + 5) ∧
    alookup (close_position eC4 sC4 "A" "TIMEOUT" 5 0).2.active_positions "A"
        = none :=
  ⟨rfl,
   (c4_close_uses_passed_pnl eC4 sC4 "A" posPartial "TIMEOUT" 5 0 rfl
      (by decide)).2.1,
   (c4_close_uses_passed_pnl eC4 sC4 "A" posPartial "TIMEOUT" 5 0 rfl
      (by decide)).2.2.2⟩

/-! ### C1 -/

/-- C1 (amended): once the daily realized P&L has fallen to or below the
daily-loss threshold, the entry decision rejects every candidate — but the
trading cycle does not keep evaluating exits: it immediately switches the
bot off and returns, leaving the session otherwise untouched, so open
positions are no longer evaluated and cannot close. -/
theorem c1_circuit_breaker (e : EngineState) (s : SessionState) (f : Fetcher)
    (now : ℚ) (hrun : s.bot_running = true)
    (hdl : s.daily_pnl ≤ MAX_DAILY_LOSS) :
    run_trading_cycle e s f now = (e, { s with bot_running := false }) ∧
    ∀ t : Token, (should_buy_token e.cfg s.seen_tokens
        (s.active_positions.map Prod.fst) s.daily_pnl t).1 = false := by
  constructor
  · unfold run_trading_cycle
    rw [if_neg (by simp [hrun]), if_pos hdl]
  · intro t
    unfold should_buy_token
    split_ifs <;> simp_all

/-- A stop-loss-eligible open position held while the breaker is tripped. -/
def posBreaker : Position :=
  { token := tokQuiet, entry_price := 1, entry_time := 0, current_price := 1,
    position_size := 20, tokens_bought := 19, highest_price := 1,
    partial_sold := false, consecutive_no_change_periods := 0, score := 60,
    trailing_stop := none, is_quick_scalp := false }

def fBreaker : Fetcher := { price := fun _ => 9/10, tokens := [] }

def eBreaker : EngineState :=
  { cfg := NORMAL_SETTINGS, price_history := [("Q", [1])],
    quick_scalp_targets := [] }

def sBreaker : SessionState :=
  { bot_running := true, turbo_mode := false, equity := 80, daily_pnl := -150,
    active_positions := [("Q", posBreaker)], seen_tokens := [], trades := [],
    tokens_bought_count := 1, win_streak := 0, loss_streak := 1,
    best_trade := 0, worst_trade := -10, last_update := 0,
    last_price_update := 0, last_token_check := 0 }

/-- C1 (counterexample): with the daily loss at the threshold and a
stop-loss-eligible open position (its exit evaluation would return a full
close), the trading cycle neither evaluates nor closes it — it returns at
once with the bot switched off, the position still open and no trade
recorded. -/
theorem c1_counterexample :
    sBreaker.daily_pnl ≤ MAX_DAILY_LOSS ∧
    (check_exit_conditions sBreaker.turbo_mode none 10 (some [1]) posBreaker
        (9/10)).should_exit = true ∧
    (check_exit_conditions sBreaker.turbo_mode none 10 (some [1]) posBreaker
        (9/10)).reason = "STOP_LOSS_8%" ∧
    (run_trading_cycle eBreaker sBreaker fBreaker 10).2.active_positions
        = [("Q", posBreaker)] ∧
    (run_trading_cycle eBreaker sBreaker fBreaker 10).2.trades = [] ∧
    (run_trading_cycle eBreaker sBreaker fBreaker 10).2.bot_running = false := by
  refine ⟨?_, ?_, ?_, ?_, ?_, ?_⟩ <;>
    norm_num [run_trading_cycle, check_exit_conditions, quick_scalp_verdict,
      percent_change, sBreaker, eBreaker, fBreaker, posBreaker, tokQuiet,
      histUpdate, no_change_step, arm_trailing, trailing_fires,
      momentum_fires, volume_decay_fires, pnl_formula, partial_pnl_of,
      MAX_DAILY_LOSS, MAX_TRADE_DURATION, SCALP_EXIT_TIME, SLIPPAGE,
      TRANSACTION_FEE, lastN, listMax, listMin, strictlyDown4]

theorem c1_circuit_breaker_witness :
    sBreaker.bot_running = true ∧
    sBreaker.daily_pnl ≤ MAX_DAILY_LOSS ∧
    run_trading_cycle eBreaker sBreaker fBreaker 10
      = (eBreaker, { sBreaker with bot_running := false }) ∧
    (should_buy_token eBreaker.cfg sBreaker.seen_tokens
        (sBreaker.active_positions.map Prod.fst) sBreaker.daily_pnl
        tokQuiet).1 = false :=
  ⟨rfl, by norm_num [sBreaker, MAX_DAILY_LOSS],
   (c1_circuit_breaker eBreaker sBreaker fBreaker 10 rfl
      (by norm_num [sBreaker, MAX_DAILY_LOSS])).1,
   (c1_circuit_breaker eBreaker sBreaker fBreaker 10 rfl
      (by norm_num [sBreaker, MAX_DAILY_LOSS])).2 tokQuiet⟩
